import Mathlib

/-!
A shallow embedding of `src/sim.py` and proofs about it.

The script draws uniform randomness from `random.random()` (values in
[0,1)); we model the random source explicitly: each function that consumes
draws takes them as arguments, and the simulation loop takes a stream
`src : ℕ → ℝ` of draws (iteration `i` consumes draws `4*i .. 4*i+3`).
Python exceptions (`math.log` on a non-positive argument, division by
zero) are modelled by `Except String`; real arithmetic is exact.
-/

/-- Constant `SAMPLE_SIZE = 235` (line 10 of `sim.py`). -/
def SAMPLE_SIZE : ℕ := 235

/-- Constant `SIMULATED_ASSESSMENT_QUIZ_ITEMS = 50` (line 11 of `sim.py`). -/
def SIMULATED_ASSESSMENT_QUIZ_ITEMS : ℕ := 50

/-- The value `z0 = sqrt(-2.0 * log u1) * cos(2.0 * pi * u2)` computed by
`box_muller` (line 34 of `sim.py`). -/
noncomputable def z0_of (u1 u2 : ℝ) : ℝ :=
  Real.sqrt (-2.0 * Real.log u1) * Real.cos (2.0 * Real.pi * u2)

/-- The value `z1 = sqrt(-2.0 * log u1) * sin(2.0 * pi * u2)` computed by
`box_muller` (line 35 of `sim.py`). -/
noncomputable def z1_of (u1 u2 : ℝ) : ℝ :=
  Real.sqrt (-2.0 * Real.log u1) * Real.sin (2.0 * Real.pi * u2)

/-- Function `box_muller` (lines 24-37 of `sim.py`), with the two uniform draws made
explicit.  `math.log` raises `ValueError: math domain error` on a
non-positive argument; there is no guard in the source, so the raise is the
only fallible step. -/
noncomputable def box_muller (u1 u2 : ℝ) : Except String (ℝ × ℝ) :=
  if u1 ≤ 0 then Except.error "ValueError: math domain error"
  else Except.ok (z0_of u1 u2, z1_of u1 u2)

/-- Function `gen_variable_procedural` (lines 42-56 of `sim.py`): sigmoid-squash the
normal deviate `z0` and rescale by `initialStdDev`. -/
noncomputable def gen_variable_procedural (initialStdDev u1 u2 : ℝ) :
    Except String ℝ := do
  let z ← box_muller u1 u2
  let clamped_z0 := 1 / (1 + Real.exp (-z.1))
  return clamped_z0 * initialStdDev

/-- The pure value produced by `gen_variable_procedural` when no exception
is raised. -/
noncomputable def procOf (initialStdDev u1 u2 : ℝ) : ℝ :=
  (1 / (1 + Real.exp (-(z0_of u1 u2)))) * initialStdDev

/-- Quantity `median_half_terminal = (SIMULATED_ASSESSMENT_QUIZ_ITEMS - 20) / 2`
(lines 72-81 of `sim.py`): the `extremes` divided by two. -/
noncomputable def median_half_terminal : ℝ :=
  ((SIMULATED_ASSESSMENT_QUIZ_ITEMS : ℝ) - 20) / 2

/-- Function `gen_simulated_learner_score` (lines 62-94 of `sim.py`), with the two
uniform draws made explicit. -/
noncomputable def gen_simulated_learner_score (inverseBiasingFactor u1 u2 : ℝ) :
    Except String ℤ := do
  let initial_std_dev : ℝ := 20
  let extremes : ℝ := (SIMULATED_ASSESSMENT_QUIZ_ITEMS : ℝ) - initial_std_dev
  let mht := extremes / 2
  let proc ← gen_variable_procedural initial_std_dev u1 u2
  let alpha := inverseBiasingFactor * mht
  return Int.floor (mht + alpha + proc)

/-- The pure score produced by `gen_simulated_learner_score` when no
exception is raised. -/
noncomputable def scoreOf (inverseBiasingFactor u1 u2 : ℝ) : ℤ :=
  Int.floor (median_half_terminal + inverseBiasingFactor * median_half_terminal +
    procOf 20 u1 u2)

lemma box_muller_ok (u1 u2 : ℝ) (h : 0 < u1) :
    box_muller u1 u2 = Except.ok (z0_of u1 u2, z1_of u1 u2) := by
  unfold box_muller
  rw [if_neg (not_le.mpr h)]

lemma gen_variable_procedural_ok (s u1 u2 : ℝ) (h : 0 < u1) :
    gen_variable_procedural s u1 u2 = Except.ok (procOf s u1 u2) := by
  unfold gen_variable_procedural
  rw [box_muller_ok u1 u2 h]
  rfl

lemma gen_simulated_learner_score_ok (f u1 u2 : ℝ) (h : 0 < u1) :
    gen_simulated_learner_score f u1 u2 = Except.ok (scoreOf f u1 u2) := by
  simp only [gen_simulated_learner_score, gen_variable_procedural_ok 20 u1 u2 h]
  rfl

lemma median_half_terminal_eq : median_half_terminal = 15 := by
  norm_num [median_half_terminal, SIMULATED_ASSESSMENT_QUIZ_ITEMS]

lemma sigmoid_pos (z : ℝ) : 0 < 1 / (1 + Real.exp (-z)) := by positivity

lemma sigmoid_lt_one (z : ℝ) : 1 / (1 + Real.exp (-z)) < 1 := by
  rw [div_lt_one (by positivity)]
  linarith [Real.exp_pos (-z)]

lemma procOf_pos (u1 u2 : ℝ) : 0 < procOf 20 u1 u2 := by
  have h := sigmoid_pos (z0_of u1 u2)
  unfold procOf
  positivity

lemma procOf_lt_twenty (u1 u2 : ℝ) : procOf 20 u1 u2 < 20 := by
  have h := sigmoid_lt_one (z0_of u1 u2)
  have h0 := sigmoid_pos (z0_of u1 u2)
  unfold procOf
  nlinarith

/-- C5: for every uniform draw u1 ∈ (0,1) and u2 ∈ [0,1),
`gen_variable_procedural` with `initialStdDev = 20` succeeds and returns a
value strictly inside the open interval (0, 20): the sigmoid maps the
finite normal deviate z0 into (0,1) and multiplication by `initialStdDev`
rescales it. -/
theorem claim_C5_thm (u1 u2 : ℝ) (h1 : 0 < u1) (h2 : u1 < 1)
    (h3 : 0 ≤ u2) (h4 : u2 < 1) :
    gen_variable_procedural 20 u1 u2 = Except.ok (procOf 20 u1 u2) ∧
    0 < procOf 20 u1 u2 ∧ procOf 20 u1 u2 < 20 :=
  ⟨gen_variable_procedural_ok 20 u1 u2 h1, procOf_pos u1 u2, procOf_lt_twenty u1 u2⟩

/-- Witness for C5 at the concrete draw u1 = 1/2, u2 = 0. -/
theorem claim_C5_witness :
    gen_variable_procedural 20 (1/2 : ℝ) 0 = Except.ok (procOf 20 (1/2) 0) ∧
    0 < procOf 20 (1/2 : ℝ) 0 ∧ procOf 20 (1/2 : ℝ) 0 < 20 :=
  claim_C5_thm (1/2) 0 (by norm_num) (by norm_num) (by norm_num) (by norm_num)

/-- C2 counterexample: at the draw u1 = 0 the generator does not guard, it
evaluates `log 0` and the uncaught `ValueError: math domain error` results;
no "degenerate random draw" signal is produced. -/
theorem claim_C2_counterexample :
    box_muller 0 (1/2 : ℝ) = Except.error "ValueError: math domain error" ∧
    box_muller 0 (1/2 : ℝ) ≠ Except.error "degenerate random draw" := by
  constructor
  · unfold box_muller
    rw [if_pos le_rfl]
  · unfold box_muller
    rw [if_pos le_rfl]
    simp

/-- C2 (amended): the generator performs no guard and no re-draw: a draw of
u1 = 0 makes `log` raise an uncaught `ValueError: math domain error`,
while for every u1 > 0 the computation of z0 and z1 succeeds. -/
theorem claim_C2_amended_thm (u1 u2 : ℝ) :
    (u1 = 0 → box_muller u1 u2 = Except.error "ValueError: math domain error") ∧
    (0 < u1 → box_muller u1 u2 = Except.ok (z0_of u1 u2, z1_of u1 u2)) := by
  refine ⟨fun h => ?_, fun h => box_muller_ok u1 u2 h⟩
  subst h
  unfold box_muller
  rw [if_pos le_rfl]

/-- Witness for the amended C2 at the concrete draws u1 = 0 and u1 = 1/2. -/
theorem claim_C2_amended_witness :
    box_muller (0 : ℝ) (1/2) = Except.error "ValueError: math domain error" ∧
    box_muller (1/2 : ℝ) (1/2) = Except.ok (z0_of (1/2) (1/2), z1_of (1/2) (1/2)) :=
  ⟨(claim_C2_amended_thm 0 (1/2)).1 rfl,
   (claim_C2_amended_thm (1/2) (1/2)).2 (by norm_num)⟩

/-- One data row of `scores.csv`: `writer.writerow([ i, preQuiz, postQuiz, diff ])`
(line 123 of `sim.py`).  Scores and the difference are integers (`math.floor`
returns `int` and subtraction of `int`s stays in `int`). -/
structure Row where
  idx : ℕ
  pre : ℤ
  post : ℤ
  diff : ℤ

/-- The mutable state of the simulation loop: the data rows emitted so far
and the accumulators `preTotal`, `postTotal`, `diffTotal`, `diffList`
(lines 110-113 of `sim.py`). -/
structure SimState where
  rows : List Row
  preTotal : ℤ
  postTotal : ℤ
  diffTotal : ℤ
  diffList : List ℤ

/-- The state before the loop starts (lines 110-113 of `sim.py`). -/
def initState : SimState := ⟨[], 0, 0, 0, []⟩

/-- The header row written at lines 100-105 of `sim.py`. -/
def csvHeader : List String :=
  ["student ref id", "pre-quiz score", "post-quiz score", "score difference"]

/-- One iteration of the loop at lines 116-129 of `sim.py`.  Iteration `i`
consumes the four uniform draws `src (4*i) .. src (4*i+3)`: two for the
pre-quiz score and two for the post-quiz score. -/
noncomputable def simStep (src : ℕ → ℝ) (st : SimState) (i : ℕ) :
    Except String SimState := do
  let preQuiz ← gen_simulated_learner_score 0.15 (src (4*i)) (src (4*i+1))
  let postQuiz ← gen_simulated_learner_score 0.60 (src (4*i+2)) (src (4*i+3))
  let diff := postQuiz - preQuiz
  return { rows := st.rows ++ [⟨i, preQuiz, postQuiz, diff⟩]
           preTotal := st.preTotal + preQuiz
           postTotal := st.postTotal + postQuiz
           diffTotal := st.diffTotal + diff
           diffList := st.diffList ++ [diff] }

/-- The simulation loop (lines 116-129 of `sim.py`) after `n` iterations:
state is threaded through `simStep`; an exception aborts the run. -/
noncomputable def simulate (src : ℕ → ℝ) : ℕ → Except String SimState
  | 0 => Except.ok initState
  | n + 1 => do
      let st ← simulate src n
      simStep src st n

/-- The row emitted by iteration `i` when no exception is raised. -/
noncomputable def rowOf (src : ℕ → ℝ) (i : ℕ) : Row :=
  ⟨i, scoreOf 0.15 (src (4*i)) (src (4*i+1)),
      scoreOf 0.60 (src (4*i+2)) (src (4*i+3)),
      scoreOf 0.60 (src (4*i+2)) (src (4*i+3)) -
        scoreOf 0.15 (src (4*i)) (src (4*i+1))⟩

/-- The loop state after `n` exception-free iterations, in closed form. -/
noncomputable def stateOf (src : ℕ → ℝ) (n : ℕ) : SimState :=
  { rows := (List.range n).map (rowOf src)
    preTotal := (((List.range n).map (rowOf src)).map Row.pre).sum
    postTotal := (((List.range n).map (rowOf src)).map Row.post).sum
    diffTotal := (((List.range n).map (rowOf src)).map Row.diff).sum
    diffList := ((List.range n).map (rowOf src)).map Row.diff }

lemma simStep_ok (src : ℕ → ℝ) (st : SimState) (i : ℕ)
    (h1 : 0 < src (4*i)) (h2 : 0 < src (4*i+2)) :
    simStep src st i = Except.ok
      { rows := st.rows ++ [rowOf src i]
        preTotal := st.preTotal + (rowOf src i).pre
        postTotal := st.postTotal + (rowOf src i).post
        diffTotal := st.diffTotal + (rowOf src i).diff
        diffList := st.diffList ++ [(rowOf src i).diff] } := by
  simp only [simStep, gen_simulated_learner_score_ok _ _ _ h1,
    gen_simulated_learner_score_ok _ _ _ h2]
  rfl

lemma simulate_ok (src : ℕ → ℝ) (hsrc : ∀ k, 0 < src k) (n : ℕ) :
    simulate src n = Except.ok (stateOf src n) := by
  induction n with
  | zero => rfl
  | succ n ih =>
      simp only [simulate, ih]
      show simStep src (stateOf src n) n = _
      rw [simStep_ok src _ n (hsrc _) (hsrc _)]
      simp [stateOf, List.range_succ]

/-- C7: with the configured `SAMPLE_SIZE = 235`, the CSV output is exactly
the header row `student ref id,pre-quiz score,post-quiz score,score
difference` followed by exactly 235 data rows `(i, preScore, postScore,
diff)` whose indices are the ordered sequence `0..234` with no gaps or
repeats; score and diff fields are integers (they live in `ℤ`). -/
theorem claim_C7_thm (src : ℕ → ℝ) (hsrc : ∀ k, 0 < src k) :
    csvHeader = ["student ref id", "pre-quiz score", "post-quiz score",
      "score difference"] ∧
    simulate src SAMPLE_SIZE = Except.ok (stateOf src SAMPLE_SIZE) ∧
    (stateOf src SAMPLE_SIZE).rows = (List.range SAMPLE_SIZE).map (rowOf src) ∧
    (stateOf src SAMPLE_SIZE).rows.length = SAMPLE_SIZE ∧
    (stateOf src SAMPLE_SIZE).rows.map Row.idx = List.range SAMPLE_SIZE := by
  refine ⟨rfl, simulate_ok src hsrc _, rfl, ?_, ?_⟩
  · simp [stateOf]
  · simp [stateOf, rowOf, List.map_map]
    exact List.map_id _

/-- Witness for C7 at the constant draw stream 1/2. -/
theorem claim_C7_witness :
    csvHeader = ["student ref id", "pre-quiz score", "post-quiz score",
      "score difference"] ∧
    simulate (fun _ => (1/2 : ℝ)) SAMPLE_SIZE =
      Except.ok (stateOf (fun _ => (1/2 : ℝ)) SAMPLE_SIZE) ∧
    (stateOf (fun _ => (1/2 : ℝ)) SAMPLE_SIZE).rows =
      (List.range SAMPLE_SIZE).map (rowOf (fun _ => (1/2 : ℝ))) ∧
    (stateOf (fun _ => (1/2 : ℝ)) SAMPLE_SIZE).rows.length = SAMPLE_SIZE ∧
    (stateOf (fun _ => (1/2 : ℝ)) SAMPLE_SIZE).rows.map Row.idx =
      List.range SAMPLE_SIZE :=
  claim_C7_thm (fun _ => (1/2 : ℝ)) (fun _ => by norm_num)

/-- C8: for every row written to the output file, the difference field
equals `postScore - preScore` exactly, as an integer identity, on every
iteration of the simulation loop. -/
theorem claim_C8_thm (src : ℕ → ℝ) (hsrc : ∀ k, 0 < src k) (st : SimState)
    (hrun : simulate src SAMPLE_SIZE = Except.ok st) :
    ∀ r ∈ st.rows, r.diff = r.post - r.pre := by
  rw [simulate_ok src hsrc] at hrun
  obtain rfl : stateOf src SAMPLE_SIZE = st := by
    simpa using hrun
  intro r hr
  simp only [stateOf, List.mem_map] at hr
  obtain ⟨i, -, rfl⟩ := hr
  rfl

/-- Witness for C8: the first row of the run driven by the constant draw
stream 1/2 satisfies the identity. -/
theorem claim_C8_witness :
    (rowOf (fun _ => (1/2 : ℝ)) 0).diff =
      (rowOf (fun _ => (1/2 : ℝ)) 0).post - (rowOf (fun _ => (1/2 : ℝ)) 0).pre :=
  claim_C8_thm (fun _ => (1/2 : ℝ)) (fun _ => by norm_num)
    (stateOf (fun _ => (1/2 : ℝ)) SAMPLE_SIZE)
    (simulate_ok (fun _ => (1/2 : ℝ)) (fun _ => by norm_num) SAMPLE_SIZE)
    (rowOf (fun _ => (1/2 : ℝ)) 0)
    (List.mem_map.mpr ⟨0, List.mem_range.mpr (by norm_num [SAMPLE_SIZE]), rfl⟩)

lemma scoreOf_015_bounds (u1 u2 : ℝ) :
    17 ≤ scoreOf 0.15 u1 u2 ∧ scoreOf 0.15 u1 u2 ≤ 37 := by
  have hp := procOf_pos u1 u2
  have hl := procOf_lt_twenty u1 u2
  unfold scoreOf
  rw [median_half_terminal_eq]
  constructor
  · rw [Int.le_floor]
    push_cast
    nlinarith
  · have h38 : Int.floor ((15 : ℝ) + 0.15 * 15 + procOf 20 u1 u2) < 38 := by
      rw [Int.floor_lt]
      push_cast
      nlinarith
    omega

lemma scoreOf_060_bounds (u1 u2 : ℝ) :
    24 ≤ scoreOf 0.60 u1 u2 ∧ scoreOf 0.60 u1 u2 ≤ 43 := by
  have hp := procOf_pos u1 u2
  have hl := procOf_lt_twenty u1 u2
  unfold scoreOf
  rw [median_half_terminal_eq]
  constructor
  · rw [Int.le_floor]
    push_cast
    nlinarith
  · have h44 : Int.floor ((15 : ℝ) + 0.60 * 15 + procOf 20 u1 u2) < 44 := by
      rw [Int.floor_lt]
      push_cast
      nlinarith
    omega

lemma scoreOf_mono (u1 u2 f1 f2 : ℝ) (h : f1 ≤ f2) :
    scoreOf f1 u1 u2 ≤ scoreOf f2 u1 u2 := by
  unfold scoreOf
  rw [median_half_terminal_eq]
  exact Int.floor_le_floor (by nlinarith)

/-- C9: for a fixed pair of uniform draws (the same underlying randomness)
and bias factors f1 ≤ f2 in [-1, 1], the score generated with f1 is at most
the score generated with f2: larger factors shift the score upward. -/
theorem claim_C9_thm (u1 u2 f1 f2 : ℝ) (hf1 : -1 ≤ f1) (hle : f1 ≤ f2)
    (hf2 : f2 ≤ 1) (h1 : 0 < u1) (h2 : u1 < 1) (h3 : 0 ≤ u2) (h4 : u2 < 1)
    (s1 s2 : ℤ) (e1 : gen_simulated_learner_score f1 u1 u2 = Except.ok s1)
    (e2 : gen_simulated_learner_score f2 u1 u2 = Except.ok s2) :
    s1 ≤ s2 := by
  rw [gen_simulated_learner_score_ok f1 u1 u2 h1] at e1
  rw [gen_simulated_learner_score_ok f2 u1 u2 h1] at e2
  obtain rfl : scoreOf f1 u1 u2 = s1 := by simpa using e1
  obtain rfl : scoreOf f2 u1 u2 = s2 := by simpa using e2
  exact scoreOf_mono u1 u2 f1 f2 hle

/-- Witness for C9 at the concrete draws u1 = u2 = 1/2 and factors 0 ≤ 1. -/
theorem claim_C9_witness :
    scoreOf 0 (1/2 : ℝ) (1/2) ≤ scoreOf 1 (1/2 : ℝ) (1/2) :=
  claim_C9_thm (1/2) (1/2) 0 1 (by norm_num) (by norm_num) (by norm_num)
    (by norm_num) (by norm_num) (by norm_num) (by norm_num) _ _
    (gen_simulated_learner_score_ok 0 (1/2) (1/2) (by norm_num))
    (gen_simulated_learner_score_ok 1 (1/2) (1/2) (by norm_num))

/-- C10: under exact real semantics, for every pair of uniform draws with
u1 ∈ (0,1), u2 ∈ [0,1), the score generated with factor 0.15 lies in
[17, 37] and the score generated with factor 0.60 lies in [24, 43]; hence
the difference of every emitted row lies in [-13, 26] and every generated score
is within [0, 50] even though no clamping is performed. -/
theorem claim_C10_thm (u1 u2 : ℝ) (src : ℕ → ℝ)
    (h1 : 0 < u1) (h2 : u1 < 1) (h3 : 0 ≤ u2) (h4 : u2 < 1)
    (hsrc : ∀ k, 0 < src k ∧ src k < 1) :
    (gen_simulated_learner_score 0.15 u1 u2 = Except.ok (scoreOf 0.15 u1 u2) ∧
      17 ≤ scoreOf 0.15 u1 u2 ∧ scoreOf 0.15 u1 u2 ≤ 37) ∧
    (gen_simulated_learner_score 0.60 u1 u2 = Except.ok (scoreOf 0.60 u1 u2) ∧
      24 ≤ scoreOf 0.60 u1 u2 ∧ scoreOf 0.60 u1 u2 ≤ 43) ∧
    (∀ r ∈ (stateOf src SAMPLE_SIZE).rows,
      (-13 ≤ r.diff ∧ r.diff ≤ 26) ∧ (0 ≤ r.pre ∧ r.pre ≤ 50) ∧
      (0 ≤ r.post ∧ r.post ≤ 50)) := by
  refine ⟨⟨gen_simulated_learner_score_ok _ _ _ h1, scoreOf_015_bounds u1 u2⟩,
    ⟨gen_simulated_learner_score_ok _ _ _ h1, scoreOf_060_bounds u1 u2⟩, ?_⟩
  intro r hr
  simp only [stateOf, List.mem_map] at hr
  obtain ⟨i, -, rfl⟩ := hr
  have hpre := scoreOf_015_bounds (src (4*i)) (src (4*i+1))
  have hpost := scoreOf_060_bounds (src (4*i+2)) (src (4*i+3))
  dsimp only [rowOf]
  exact ⟨⟨by omega, by omega⟩, ⟨by omega, by omega⟩, by omega, by omega⟩

/-- Witness for C10 at the concrete draws u1 = u2 = 1/2 and the constant
draw stream 1/2. -/
theorem claim_C10_witness :
    (gen_simulated_learner_score 0.15 (1/2 : ℝ) (1/2) =
        Except.ok (scoreOf 0.15 (1/2) (1/2)) ∧
      17 ≤ scoreOf 0.15 (1/2 : ℝ) (1/2) ∧ scoreOf 0.15 (1/2 : ℝ) (1/2) ≤ 37) ∧
    (gen_simulated_learner_score 0.60 (1/2 : ℝ) (1/2) =
        Except.ok (scoreOf 0.60 (1/2) (1/2)) ∧
      24 ≤ scoreOf 0.60 (1/2 : ℝ) (1/2) ∧ scoreOf 0.60 (1/2 : ℝ) (1/2) ≤ 43) ∧
    (∀ r ∈ (stateOf (fun _ => (1/2 : ℝ)) SAMPLE_SIZE).rows,
      (-13 ≤ r.diff ∧ r.diff ≤ 26) ∧ (0 ≤ r.pre ∧ r.pre ≤ 50) ∧
      (0 ≤ r.post ∧ r.post ≤ 50)) :=
  claim_C10_thm (1/2) (1/2) (fun _ => (1/2 : ℝ)) (by norm_num) (by norm_num)
    (by norm_num) (by norm_num) (fun _ => ⟨by norm_num, by norm_num⟩)

/-- C4 counterexample: the claim asserts that some uniform draws in the
stated ranges make the score (with factor 0.15 or 0.60) fall outside
[0, 50]; this is impossible, because the sigmoid bounds the procedural
term inside (0, 20). -/
theorem claim_C4_counterexample :
    ¬ ∃ (u1 u2 f : ℝ) (s : ℤ), (0 < u1 ∧ u1 < 1 ∧ 0 ≤ u2 ∧ u2 < 1) ∧
      (f = 0.15 ∨ f = 0.60) ∧
      gen_simulated_learner_score f u1 u2 = Except.ok s ∧ (s < 0 ∨ 50 < s) := by
  rintro ⟨u1, u2, f, s, ⟨h1, h2, h3, h4⟩, hf, hs, hout⟩
  rw [gen_simulated_learner_score_ok f u1 u2 h1] at hs
  obtain rfl : scoreOf f u1 u2 = s := by simpa using hs
  rcases hf with rfl | rfl
  · have := scoreOf_015_bounds u1 u2
    omega
  · have := scoreOf_060_bounds u1 u2
    omega

/-- C4 (amended): no clamping is applied, yet for the bias factors actually
used (0.15 and 0.60) and every uniform draw u1 ∈ (0,1), u2 ∈ [0,1), the
returned score always lies within [0, 50]: out-of-range values are
impossible under exact real semantics, not merely statistically rare. -/
theorem claim_C4_amended_thm (u1 u2 : ℝ) (h1 : 0 < u1) (h2 : u1 < 1)
    (h3 : 0 ≤ u2) (h4 : u2 < 1) (f : ℝ) (hf : f = 0.15 ∨ f = 0.60) (s : ℤ)
    (hs : gen_simulated_learner_score f u1 u2 = Except.ok s) :
    0 ≤ s ∧ s ≤ 50 := by
  rw [gen_simulated_learner_score_ok f u1 u2 h1] at hs
  obtain rfl : scoreOf f u1 u2 = s := by simpa using hs
  rcases hf with rfl | rfl
  · have := scoreOf_015_bounds u1 u2
    omega
  · have := scoreOf_060_bounds u1 u2
    omega

/-- Witness for the amended C4 at the concrete draws u1 = u2 = 1/2 with
factor 0.15. -/
theorem claim_C4_amended_witness :
    0 ≤ scoreOf 0.15 (1/2 : ℝ) (1/2) ∧ scoreOf 0.15 (1/2 : ℝ) (1/2) ≤ 50 :=
  claim_C4_amended_thm (1/2) (1/2) (by norm_num) (by norm_num) (by norm_num)
    (by norm_num) 0.15 (Or.inl rfl) _
    (gen_simulated_learner_score_ok 0.15 (1/2) (1/2) (by norm_num))

/-- The scalar report printed at lines 146-156 of `sim.py`; fields are the
variables computed at lines 133-144. -/
structure StatsReport where
  preMean : ℝ
  postMean : ℝ
  diffMean : ℝ
  diffsVariance : ℝ
  diffStdDev : ℝ
  stdError : ℝ
  pairedTTest : ℝ
  cohensD : ℝ

/-- Python division: raises `ZeroDivisionError` on a zero denominator,
otherwise exact division. -/
noncomputable def pydiv (a b : ℝ) : Except String ℝ :=
  if b = 0 then Except.error "ZeroDivisionError" else Except.ok (a / b)

/-- The statistics stage (lines 133-144 of `sim.py`) on the accumulated
sums and the ordered difference list, with the sample size as the input the
spec names (the script instantiates it with `SAMPLE_SIZE`).  Every division
the script performs goes through `pydiv`; `math.sqrt` is `Real.sqrt` (its
arguments are non-negative on all reachable paths). -/
noncomputable def statsEngine (n : ℕ) (preTotal postTotal diffTotal : ℤ)
    (diffList : List ℤ) : Except String StatsReport := do
  let preMean ← pydiv (preTotal : ℝ) (n : ℝ)
  let postMean ← pydiv (postTotal : ℝ) (n : ℝ)
  let diffMean ← pydiv (diffTotal : ℝ) (n : ℝ)
  let sumSqDiff := (diffList.map (fun x : ℤ => ((x : ℝ) - diffMean) ^ 2)).sum
  let diffsVariance ← pydiv sumSqDiff ((n : ℝ) - 1)
  let diffStdDev := Real.sqrt diffsVariance
  let stdError ← pydiv diffStdDev (Real.sqrt (n : ℝ))
  let pairedTTest ← pydiv diffMean stdError
  let cohensD ← pydiv diffMean diffStdDev
  return ⟨preMean, postMean, diffMean, diffsVariance, diffStdDev, stdError,
    pairedTTest, cohensD⟩

lemma pydiv_ok (a b : ℝ) (h : b ≠ 0) : pydiv a b = Except.ok (a / b) := by
  unfold pydiv
  rw [if_neg h]

lemma pydiv_err (a b : ℝ) (h : b = 0) :
    pydiv a b = Except.error "ZeroDivisionError" := by
  unfold pydiv
  rw [if_pos h]

lemma ok_bind_eq {α β : Type} (a : α) (f : α → Except String β) :
    (Except.ok a >>= f : Except String β) = f a := rfl

lemma error_bind_eq {α β : Type} (e : String) (f : α → Except String β) :
    (Except.error e >>= f : Except String β) = Except.error e := rfl

/-- The difference mean computed by the script on the happy path. -/
noncomputable def diffMeanOf (n : ℕ) (d : ℤ) : ℝ := (d : ℝ) / (n : ℝ)

/-- The Bessel-corrected variance computed by the script on the happy path. -/
noncomputable def diffsVarianceOf (n : ℕ) (d : ℤ) (l : List ℤ) : ℝ :=
  (l.map (fun x : ℤ => ((x : ℝ) - diffMeanOf n d) ^ 2)).sum / ((n : ℝ) - 1)

/-- The difference standard deviation computed by the script. -/
noncomputable def diffStdDevOf (n : ℕ) (d : ℤ) (l : List ℤ) : ℝ :=
  Real.sqrt (diffsVarianceOf n d l)

/-- The standard error computed by the script. -/
noncomputable def stdErrorOf (n : ℕ) (d : ℤ) (l : List ℤ) : ℝ :=
  diffStdDevOf n d l / Real.sqrt (n : ℝ)

/-- The paired t-statistic computed by the script. -/
noncomputable def pairedTTestOf (n : ℕ) (d : ℤ) (l : List ℤ) : ℝ :=
  diffMeanOf n d / stdErrorOf n d l

/-- The effect size computed by the script. -/
noncomputable def cohensDOf (n : ℕ) (d : ℤ) (l : List ℤ) : ℝ :=
  diffMeanOf n d / diffStdDevOf n d l

lemma statsEngine_ok (n : ℕ) (p q d : ℤ) (l : List ℤ)
    (hn : (n : ℝ) ≠ 0) (hn1 : (n : ℝ) - 1 ≠ 0)
    (hsd : Real.sqrt (diffsVarianceOf n d l) ≠ 0) :
    statsEngine n p q d l = Except.ok
      { preMean := (p : ℝ) / (n : ℝ)
        postMean := (q : ℝ) / (n : ℝ)
        diffMean := diffMeanOf n d
        diffsVariance := diffsVarianceOf n d l
        diffStdDev := diffStdDevOf n d l
        stdError := stdErrorOf n d l
        pairedTTest := pairedTTestOf n d l
        cohensD := cohensDOf n d l } := by
  have hsn : Real.sqrt (n : ℝ) ≠ 0 := by
    rw [Real.sqrt_ne_zero']
    exact lt_of_le_of_ne (Nat.cast_nonneg n) (Ne.symm hn)
  have hse : stdErrorOf n d l ≠ 0 := by
    unfold stdErrorOf
    exact div_ne_zero hsd hsn
  have h4 : pydiv ((l.map (fun x : ℤ => ((x : ℝ) - (d : ℝ) / (n : ℝ)) ^ 2)).sum)
      ((n : ℝ) - 1) = Except.ok (diffsVarianceOf n d l) := by
    unfold diffsVarianceOf diffMeanOf
    exact pydiv_ok _ _ hn1
  have h5 : pydiv (Real.sqrt (diffsVarianceOf n d l)) (Real.sqrt (n : ℝ)) =
      Except.ok (stdErrorOf n d l) := by
    unfold stdErrorOf diffStdDevOf
    exact pydiv_ok _ _ hsn
  have h6 : pydiv ((d : ℝ) / (n : ℝ)) (stdErrorOf n d l) =
      Except.ok (pairedTTestOf n d l) := by
    unfold pairedTTestOf diffMeanOf
    exact pydiv_ok _ _ hse
  have h7 : pydiv ((d : ℝ) / (n : ℝ)) (Real.sqrt (diffsVarianceOf n d l)) =
      Except.ok (cohensDOf n d l) := by
    unfold cohensDOf diffMeanOf diffStdDevOf
    exact pydiv_ok _ _ hsd
  simp only [statsEngine, pydiv_ok (p : ℝ) _ hn, pydiv_ok (q : ℝ) _ hn,
    pydiv_ok (d : ℝ) _ hn, h4, h5, h6, h7, ok_bind_eq]
  rfl

lemma statsEngine_err_n1 (p q d : ℤ) (l : List ℤ) :
    statsEngine 1 p q d l = Except.error "ZeroDivisionError" := by
  have h1 : ((1 : ℕ) : ℝ) ≠ 0 := by norm_num
  have h4 : ∀ x : ℝ, pydiv x (((1 : ℕ) : ℝ) - 1) =
      Except.error "ZeroDivisionError" :=
    fun x => pydiv_err _ _ (by norm_num)
  simp only [statsEngine, pydiv_ok (p : ℝ) _ h1, pydiv_ok (q : ℝ) _ h1,
    pydiv_ok (d : ℝ) _ h1, h4, ok_bind_eq, error_bind_eq]

lemma statsEngine_err_const (n : ℕ) (p q : ℤ) (l : List ℤ) (hn2 : 2 ≤ n)
    (hlen : l.length = n) (hconst : ∀ x ∈ l, ∀ y ∈ l, x = y) :
    statsEngine n p q l.sum l = Except.error "ZeroDivisionError" := by
  have h2r : (2 : ℝ) ≤ (n : ℝ) := by exact_mod_cast hn2
  have hn : (n : ℝ) ≠ 0 := by
    intro h
    linarith
  have hn1 : (n : ℝ) - 1 ≠ 0 := by
    intro h
    linarith
  have hsn : Real.sqrt (n : ℝ) ≠ 0 := by
    rw [Real.sqrt_ne_zero']
    linarith
  obtain ⟨c, l', rfl⟩ : ∃ c l', l = c :: l' := by
    cases l with
    | nil =>
        exfalso
        simp at hlen
        omega
    | cons a t => exact ⟨a, t, rfl⟩
  have hc : ∀ x ∈ c :: l', x = c :=
    fun x hx => hconst x hx c (List.mem_cons_self c l')
  have hsumZ : (c :: l').sum = ((n : ℕ) : ℤ) * c := by
    rw [List.sum_eq_card_nsmul _ c hc, hlen]
    simp [nsmul_eq_mul]
  have hmean : (((c :: l').sum : ℤ) : ℝ) / (n : ℝ) = (c : ℝ) := by
    rw [hsumZ]
    push_cast
    exact mul_div_cancel_left₀ _ hn
  have h4 : pydiv (((c :: l').map
      (fun x : ℤ => ((x : ℝ) - (((c :: l').sum : ℤ) : ℝ) / (n : ℝ)) ^ 2)).sum)
      ((n : ℝ) - 1) = Except.ok 0 := by
    have hzero : ((c :: l').map
        (fun x : ℤ => ((x : ℝ) - (((c :: l').sum : ℤ) : ℝ) / (n : ℝ)) ^ 2)).sum = 0 := by
      apply List.sum_eq_zero
      intro y hy
      simp only [List.mem_map] at hy
      obtain ⟨a, ha, rfl⟩ := hy
      rw [hc a ha, hmean]
      ring
    rw [hzero, pydiv_ok _ _ hn1, zero_div]
  have h5 : pydiv (Real.sqrt 0) (Real.sqrt (n : ℝ)) = Except.ok 0 := by
    rw [Real.sqrt_zero, pydiv_ok _ _ hsn, zero_div]
  have h6 : ∀ x : ℝ, pydiv x 0 = Except.error "ZeroDivisionError" :=
    fun x => pydiv_err x 0 rfl
  simp only [statsEngine, pydiv_ok (p : ℝ) _ hn, pydiv_ok (q : ℝ) _ hn,
    pydiv_ok (((c :: l').sum : ℤ) : ℝ) _ hn, h4, h5, h6, ok_bind_eq,
    error_bind_eq]

/-- C1 counterexample: at sample size 1 (single difference 0, sums 20/20/0)
the statistics stage raises `ZeroDivisionError` at the Bessel division by
`N - 1`; no distinct "insufficient variance to compute effect size"
condition is surfaced. -/
theorem claim_C1_counterexample :
    statsEngine 1 20 20 0 [0] = Except.error "ZeroDivisionError" ∧
    statsEngine 1 20 20 0 [0] ≠
      Except.error "insufficient variance to compute effect size" := by
  refine ⟨statsEngine_err_n1 20 20 0 [0], ?_⟩
  rw [statsEngine_err_n1 20 20 0 [0]]
  simp

/-- C1 (amended): if the difference standard deviation is zero (sample size
N = 1, or all N differences identical), the statistics stage raises an
uncaught `ZeroDivisionError` (at the variance divisor N - 1 when N = 1, at
the t-statistic division otherwise); it never silently propagates
infinity/NaN, but it surfaces no distinct "insufficient variance to compute
effect size" condition. -/
theorem claim_C1_amended_thm (n : ℕ) (p q : ℤ) (l : List ℤ)
    (hn : 1 ≤ n) (hlen : l.length = n)
    (hdeg : n = 1 ∨ ∀ x ∈ l, ∀ y ∈ l, x = y) :
    statsEngine n p q l.sum l = Except.error "ZeroDivisionError" ∧
    statsEngine n p q l.sum l ≠
      Except.error "insufficient variance to compute effect size" := by
  have herr : statsEngine n p q l.sum l = Except.error "ZeroDivisionError" := by
    rcases hdeg with rfl | hconst
    · exact statsEngine_err_n1 p q _ l
    · rcases Nat.lt_or_ge n 2 with h2 | h2
      · obtain rfl : n = 1 := by omega
        exact statsEngine_err_n1 p q _ l
      · exact statsEngine_err_const n p q l h2 hlen hconst
  refine ⟨herr, ?_⟩
  rw [herr]
  simp

/-- Witness for the amended C1: two identical differences. -/
theorem claim_C1_amended_witness :
    statsEngine 2 0 0 ([3, 3] : List ℤ).sum [3, 3] =
      Except.error "ZeroDivisionError" ∧
    statsEngine 2 0 0 ([3, 3] : List ℤ).sum [3, 3] ≠
      Except.error "insufficient variance to compute effect size" :=
  claim_C1_amended_thm 2 0 0 [3, 3] (by norm_num) rfl (Or.inr (by decide))

/-- Reference definition from the spec (§4.5): a mean is the accumulated
total divided by N. -/
noncomputable def spec_mean (total : ℤ) (n : ℕ) : ℝ := (total : ℝ) / (n : ℝ)

/-- Reference definition from the spec (§4.5): Bessel-corrected sample
variance Σ(d − diffMean)² / (N − 1) over the ordered difference sequence,
with diffMean = diffSum / N. -/
noncomputable def spec_sampleVariance (ds : List ℤ) (n : ℕ) : ℝ :=
  (ds.map (fun d : ℤ => ((d : ℝ) - spec_mean ds.sum n) ^ 2)).sum / ((n : ℝ) - 1)

/-- Reference definition from the spec (§4.5): diffStdDev = sqrt(sampleVariance). -/
noncomputable def spec_diffStdDev (ds : List ℤ) (n : ℕ) : ℝ :=
  Real.sqrt (spec_sampleVariance ds n)

/-- Reference definition from the spec (§4.5): standardError = diffStdDev / sqrt(N). -/
noncomputable def spec_standardError (ds : List ℤ) (n : ℕ) : ℝ :=
  spec_diffStdDev ds n / Real.sqrt (n : ℝ)

/-- Reference definition from the spec (§4.5): tStatistic = diffMean / standardError. -/
noncomputable def spec_tStatistic (ds : List ℤ) (n : ℕ) : ℝ :=
  spec_mean ds.sum n / spec_standardError ds n

/-- Reference definition from the spec (§4.5): cohensD = diffMean / diffStdDev. -/
noncomputable def spec_cohensD (ds : List ℤ) (n : ℕ) : ℝ :=
  spec_mean ds.sum n / spec_diffStdDev ds n

/-- C6: given the N = 235 accumulated sums and the ordered difference
sequence (with nonzero reference variance, so that no division raises),
the statistics stage computes preMean = preSum/N, postMean = postSum/N,
diffMean = diffSum/N, the Bessel-corrected sample variance, its square
root, standardError = diffStdDev/sqrt N, tStatistic = diffMean/standardError
and cohensD = diffMean/diffStdDev, each equal to the corresponding
reference definition taken from the spec. -/
theorem claim_C6_thm (p q : ℤ) (l : List ℤ)
    (hlen : l.length = SAMPLE_SIZE)
    (hvar : spec_sampleVariance l SAMPLE_SIZE ≠ 0) :
    statsEngine SAMPLE_SIZE p q l.sum l = Except.ok
      { preMean := spec_mean p SAMPLE_SIZE
        postMean := spec_mean q SAMPLE_SIZE
        diffMean := spec_mean l.sum SAMPLE_SIZE
        diffsVariance := spec_sampleVariance l SAMPLE_SIZE
        diffStdDev := spec_diffStdDev l SAMPLE_SIZE
        stdError := spec_standardError l SAMPLE_SIZE
        pairedTTest := spec_tStatistic l SAMPLE_SIZE
        cohensD := spec_cohensD l SAMPLE_SIZE } := by
  have hvnn : 0 ≤ diffsVarianceOf SAMPLE_SIZE l.sum l := by
    unfold diffsVarianceOf
    apply div_nonneg
    · apply List.sum_nonneg
      intro x hx
      simp only [List.mem_map] at hx
      obtain ⟨a, ha, rfl⟩ := hx
      positivity
    · norm_num [SAMPLE_SIZE]
  have hsd : Real.sqrt (diffsVarianceOf SAMPLE_SIZE l.sum l) ≠ 0 := by
    rw [Real.sqrt_ne_zero hvnn]
    exact hvar
  rw [statsEngine_ok SAMPLE_SIZE p q l.sum l (by norm_num [SAMPLE_SIZE])
    (by norm_num [SAMPLE_SIZE]) hsd]
  rfl

/-- Witness for C6: 235 differences with nonzero variance (one 1 followed
by 234 zeros). -/
theorem claim_C6_witness :
    statsEngine SAMPLE_SIZE 0 0 (1 :: List.replicate 234 (0 : ℤ)).sum
      (1 :: List.replicate 234 (0 : ℤ)) = Except.ok
      { preMean := spec_mean 0 SAMPLE_SIZE
        postMean := spec_mean 0 SAMPLE_SIZE
        diffMean := spec_mean (1 :: List.replicate 234 (0 : ℤ)).sum SAMPLE_SIZE
        diffsVariance := spec_sampleVariance (1 :: List.replicate 234 (0 : ℤ)) SAMPLE_SIZE
        diffStdDev := spec_diffStdDev (1 :: List.replicate 234 (0 : ℤ)) SAMPLE_SIZE
        stdError := spec_standardError (1 :: List.replicate 234 (0 : ℤ)) SAMPLE_SIZE
        pairedTTest := spec_tStatistic (1 :: List.replicate 234 (0 : ℤ)) SAMPLE_SIZE
        cohensD := spec_cohensD (1 :: List.replicate 234 (0 : ℤ)) SAMPLE_SIZE } :=
  claim_C6_thm 0 0 (1 :: List.replicate 234 (0 : ℤ))
    (by rw [List.length_cons, List.length_replicate]
        rfl)
    (by
      unfold spec_sampleVariance spec_mean
      simp only [List.map_cons, List.map_replicate, List.sum_cons,
        List.sum_replicate, smul_eq_mul, SAMPLE_SIZE]
      push_cast
      norm_num)

lemma log_four_eq : Real.log 4 = 2 * Real.log 2 := by
  rw [show (4 : ℝ) = 2 ^ 2 by norm_num, Real.log_pow]
  push_cast
  ring

lemma log_four_bounds : 1.3862943606 < Real.log 4 ∧ Real.log 4 < 1.3862943616 := by
  rw [log_four_eq]
  constructor
  · linarith [Real.log_two_gt_d9]
  · linarith [Real.log_two_lt_d9]

lemma one_le_log_four : 1 ≤ Real.log 4 := by
  linarith [log_four_bounds.1]

lemma log_three_lt : Real.log 3 < 1.1362943616 := by
  have hdiv : Real.log ((4 : ℝ) / 3) = Real.log 4 - Real.log 3 :=
    Real.log_div (by norm_num) (by norm_num)
  have hlow : (1 / 4 : ℝ) ≤ Real.log ((4 : ℝ) / 3) := by
    have h := Real.add_one_le_exp (-Real.log ((4 : ℝ) / 3))
    rw [Real.exp_neg, Real.exp_log (by norm_num : (0 : ℝ) < 4 / 3)] at h
    have h34 : ((4 : ℝ) / 3)⁻¹ = 3 / 4 := by norm_num
    rw [h34] at h
    linarith
  linarith [log_four_bounds.2]

lemma sq_log_three_lt : Real.log 3 ^ 2 < Real.log 4 := by
  have h3 : (0 : ℝ) ≤ Real.log 3 := Real.log_nonneg (by norm_num)
  nlinarith [log_three_lt, log_four_bounds.1]

lemma exp_sqrt_log_four_bounds :
    3 < Real.exp (Real.sqrt (Real.log 4)) ∧
    Real.exp (Real.sqrt (Real.log 4)) ≤ 4 := by
  constructor
  · have h1 : Real.log 3 < Real.sqrt (Real.log 4) := by
      rw [Real.lt_sqrt (Real.log_nonneg (by norm_num))]
      exact sq_log_three_lt
    calc (3 : ℝ) = Real.exp (Real.log 3) := (Real.exp_log (by norm_num)).symm
      _ < Real.exp (Real.sqrt (Real.log 4)) := Real.exp_lt_exp.mpr h1
  · have h2 : Real.sqrt (Real.log 4) ≤ Real.log 4 := by
      rw [Real.sqrt_le_iff]
      refine ⟨by linarith [one_le_log_four], ?_⟩
      nlinarith [one_le_log_four]
    calc Real.exp (Real.sqrt (Real.log 4)) ≤ Real.exp (Real.log 4) :=
        Real.exp_le_exp.mpr h2
      _ = 4 := Real.exp_log (by norm_num)

lemma z0_at_half : z0_of (1/2) (1/2) = -Real.sqrt (Real.log 4) := by
  unfold z0_of
  rw [show (2.0 : ℝ) * Real.pi * (1/2) = Real.pi by ring, Real.cos_pi]
  rw [show (-2.0 : ℝ) * Real.log (1/2) = Real.log 4 by
    rw [one_div, Real.log_inv, log_four_eq]
    ring]
  ring

lemma proc_at_half : 4 ≤ procOf 20 (1/2) (1/2) ∧ procOf 20 (1/2) (1/2) < 5 := by
  unfold procOf
  rw [z0_at_half, neg_neg]
  obtain ⟨h3, h4⟩ := exp_sqrt_log_four_bounds
  have hpos : (0 : ℝ) < 1 + Real.exp (Real.sqrt (Real.log 4)) := by positivity
  have heq : (1 / (1 + Real.exp (Real.sqrt (Real.log 4)))) * 20 =
      20 / (1 + Real.exp (Real.sqrt (Real.log 4))) := by ring
  rw [heq]
  constructor
  · rw [le_div_iff₀ hpos]
    linarith
  · rw [div_lt_iff₀ hpos]
    linarith

lemma score_at_half_zero : scoreOf 0 (1/2) (1/2) = 19 := by
  unfold scoreOf
  rw [median_half_terminal_eq]
  obtain ⟨h1, h2⟩ := proc_at_half
  rw [Int.floor_eq_iff]
  constructor
  · push_cast
    linarith
  · push_cast
    linarith

/-- C3 counterexample: with bias factor 0 and the uniform random source
fixed at its median 1/2, the score is not 15 = medianHalf. -/
theorem claim_C3_counterexample :
    gen_simulated_learner_score 0 (1/2 : ℝ) (1/2) ≠ Except.ok 15 := by
  rw [gen_simulated_learner_score_ok 0 (1/2) (1/2) (by norm_num),
    score_at_half_zero]
  simp

/-- C3 (amended): with bias factor 0 and a zero-variance random source
fixed at its median (both uniform draws equal to 1/2), the score is
floor(medianHalf + sigmoid(z0)·20) = 19, not medianHalf = 15: a factor of
0 centers the score at medianHalf plus the sigmoid-squashed offset (here
between 4 and 5), because the procedural term is strictly positive, never
zero. -/
theorem claim_C3_amended_thm :
    gen_simulated_learner_score 0 (1/2 : ℝ) (1/2) = Except.ok 19 ∧
    4 ≤ procOf 20 (1/2 : ℝ) (1/2) ∧ procOf 20 (1/2 : ℝ) (1/2) < 5 := by
  refine ⟨?_, proc_at_half⟩
  rw [gen_simulated_learner_score_ok 0 (1/2) (1/2) (by norm_num),
    score_at_half_zero]
